import Mathlib

/-!
Verification of the SwiftLogi marketplace backend (order lifecycle and
job-assignment workflow) against its specification.

The repository contains several server variants.  We shallowly embed the
routes the claims refer to:

* `part_003` (the fullest variant): order schema with a nullable `rider`
  field, `POST /api/orders` (order creation with a merged out-of-stock /
  not-found check), `GET /api/jobs` (role-guarded job feed) and
  `POST /api/jobs/:orderId/accept` (atomic `findOneAndUpdate` claim).
* `server.js`, second half: `POST /api/orders` (commission 10 percent,
  totalAmount = price + deliveryFee) over the `models/Order` schema of
  `part_001`, and `POST /api/orders/accept/:orderId` which claims a job by
  a read-then-write sequence (`findById`, guard on `rider`, then `save`).
* `server.js`, first half: `POST /api/orders` with three distinct failure
  responses (missing seller id, product not found, out of stock).
* `part_002`, first half: `GET /api/jobs` with no authentication and no
  role guard.
* `part_002`, second half: `POST /api/register` which silently overwrites
  an existing user with the same email.
* `part_004`: `POST /api/orders` that validates field presence only and
  never looks the product up.

JavaScript numbers are modelled as `ℚ` (all arithmetic the claims touch is
exact), Mongo ObjectIds as `Nat`, presence of optional request fields as
`Option`, and JavaScript falsiness of ids/strings via explicit helpers.
-/

namespace SwiftLogi

/-- An authenticated caller as decoded from the JWT: `{ id, role }`. -/
structure Auth where
  id : Nat
  role : String
deriving DecidableEq, Repr

/-- JavaScript falsiness of a possibly-absent numeric id (`!x`):
true when the field is absent or zero. -/
def falsyN (x : Option Nat) : Bool :=
  match x with
  | none => true
  | some n => n == 0

/-- JavaScript falsiness of a possibly-absent string (`!x`):
true when the field is absent or the empty string. -/
def falsyS (x : Option String) : Bool :=
  match x with
  | none => true
  | some v => v == ""

/-- JavaScript `x || d` for a possibly-absent string field. -/
def jsOrS (x : Option String) (d : String) : String :=
  match x with
  | none => d
  | some v => if v = "" then d else v

/-! ## The part_003 variant -/

/-- `ProductSchema` of part_003 / server.js:
`{ name, description, price, stock, seller }`.  This structure also stands
for the `models/Product` collaborator of the `server.js` second half
(its file is not in the repository; the spec describes it as
`findProductById(id) -> (price, stock, sellerId)`). -/
structure Product3 where
  pid : Nat
  name : String
  description : String
  price : ℚ
  stock : Int
  seller : Nat
deriving DecidableEq, Repr

/-- `UserSchema` of part_003, restricted to the fields the order routes
read (`populate` restricted to the name field). -/
structure User3 where
  uid : Nat
  name : String
deriving DecidableEq, Repr

/-- `OrderSchema` of part_003: buyer, seller, product, price, deliveryFee
(default 1500), commission, status (default `"pending"`), rider
(default `null`), createdAt. -/
structure Order3 where
  oid : Nat
  buyer : Nat
  seller : Nat
  product : Nat
  price : ℚ
  deliveryFee : ℚ
  commission : ℚ
  status : String
  rider : Option Nat
  createdAt : Nat
deriving DecidableEq, Repr

/-- The Mongo collections the part_003 routes touch, plus a fresh-id
counter standing for ObjectId generation. -/
structure Store3 where
  products : List Product3
  orders : List Order3
  users : List User3
  nextOid : Nat
deriving DecidableEq, Repr

/-- `COMMISSION_RATE = 0.05` of part_003 and of the first server.js half. -/
def COMMISSION_RATE : ℚ := 5 / 100

/-- `Product.findById`. -/
def findProduct3 (l : List Product3) (pid : Nat) : Option Product3 :=
  l.find? (fun p => p.pid == pid)

/-- `User.findById`, as performed by `populate` of seller or buyer restricted to the name field. -/
def findUser3 (l : List User3) (uid : Nat) : Option User3 :=
  l.find? (fun u => u.uid == uid)

/-- Request body of `POST /api/orders` (part_003 and first server.js half):
`{ productId, price, sellerId, deliveryFee }`. -/
structure Body3 where
  productId : Nat
  price : ℚ
  sellerId : Option Nat
  deliveryFee : Option ℚ
deriving DecidableEq, Repr

/-- Response of part_003 `POST /api/orders`. -/
structure RespC3 where
  status : Nat
  error : Option String
  order : Option Order3
deriving DecidableEq, Repr

/-- part_003 `POST /api/orders`: requires a (truthy) sellerId, merges the
missing-product and out-of-stock failures into one 400 response, computes
`commission = price * COMMISSION_RATE`, saves the order with status
`"pending"` (rider defaults to `null`), then decrements the stock. -/
def createOrder3 (caller : Auth) (body : Body3) (now : Nat) (s : Store3) :
    RespC3 × Store3 :=
  if falsyN body.sellerId then
    (⟨400, some "Seller ID is required to place an order.", none⟩, s)
  else
    match findProduct3 s.products body.productId with
    | none =>
      (⟨400, some "Product is out of stock or not found.", none⟩, s)
    | some p =>
      if p.stock < 1 then
        (⟨400, some "Product is out of stock or not found.", none⟩, s)
      else
        let commission := body.price * COMMISSION_RATE
        let o : Order3 :=
          { oid := s.nextOid
            buyer := caller.id
            seller := body.sellerId.getD 0
            product := body.productId
            price := body.price
            deliveryFee := body.deliveryFee.getD 1500
            commission := commission
            status := "pending"
            rider := none
            createdAt := now }
        let products := s.products.map
          (fun q => if q.pid == p.pid then { q with stock := q.stock - 1 } else q)
        (⟨201, none, some o⟩,
         { s with products := products, orders := s.orders ++ [o],
                  nextOid := s.nextOid + 1 })

/-- One entry of the part_003 job feed, as shaped by the route:
orderId, pickup (seller name), dropoff (buyer name), productName,
deliveryFee, commission, riderPayout (the full delivery fee). -/
structure JobEntry where
  orderId : Nat
  pickup : Option String
  dropoff : Option String
  productName : Option String
  deliveryFee : ℚ
  commission : ℚ
  riderPayout : ℚ
deriving DecidableEq, Repr

/-- The shaping of one order into a feed entry in part_003 `GET /api/jobs`
(references resolved by `populate`). -/
def jobSummary (s : Store3) (o : Order3) : JobEntry :=
  { orderId := o.oid
    pickup := (findUser3 s.users o.seller).map User3.name
    dropoff := (findUser3 s.users o.buyer).map User3.name
    productName := (findProduct3 s.products o.product).map Product3.name
    deliveryFee := o.deliveryFee
    commission := o.commission
    riderPayout := o.deliveryFee }

/-- Response of part_003 `GET /api/jobs`. -/
structure RespJ3 where
  status : Nat
  error : Option String
  jobs : List JobEntry
deriving DecidableEq, Repr

/-- part_003 `GET /api/jobs`: 403 unless the caller role is rider or
admin, otherwise the orders matching `status = pending, rider = null`,
shaped for the rider. -/
def getJobs3 (caller : Auth) (s : Store3) : RespJ3 :=
  if caller.role ≠ "rider" ∧ caller.role ≠ "admin" then
    ⟨403, some "Access denied. Only riders can view jobs.", []⟩
  else
    ⟨200, none,
     (s.orders.filter (fun o => o.status == "pending" && o.rider == none)).map
       (jobSummary s)⟩

/-- The `$set` applied by the part_003 accept route: status `"shipped"`,
rider set to the caller. -/
def claimUpdate (riderId : Nat) (o : Order3) : Order3 :=
  { o with status := "shipped", rider := some riderId }

/-- `Order.findOneAndUpdate` with filter
`(_id = orderId, status = pending, rider = null)` and the claim `$set`:
one atomic conditional update returning the updated document (option
`new: true`) and the updated collection. -/
def findOneAndUpdateClaim (l : List Order3) (orderId riderId : Nat) :
    Option Order3 × List Order3 :=
  match l with
  | [] => (none, [])
  | o :: rest =>
    if o.oid = orderId ∧ o.status = "pending" ∧ o.rider = none then
      (some (claimUpdate riderId o), claimUpdate riderId o :: rest)
    else
      ((findOneAndUpdateClaim rest orderId riderId).1,
       o :: (findOneAndUpdateClaim rest orderId riderId).2)

/-- Response of part_003 `POST /api/jobs/:orderId/accept`.  On success the
route returns a message and the order id only (not the full order). -/
structure RespA3 where
  status : Nat
  error : Option String
  message : Option String
  orderId : Option Nat
deriving DecidableEq, Repr

/-- The single failure response of the part_003 accept route, produced
both when the order id does not exist and when the guard fails. -/
def conflictResp3 : RespA3 :=
  ⟨404, some "Job not found, already accepted, or status changed.", none, none⟩

/-- part_003 `POST /api/jobs/:orderId/accept`: 403 unless the caller is a
rider, then one atomic conditional update; any unmatched filter (missing
id, already claimed, or wrong status) yields the one 404 response. -/
def accept3 (caller : Auth) (s : Store3) (orderId : Nat) : RespA3 × Store3 :=
  if caller.role ≠ "rider" then
    (⟨403, some "Access denied. Only riders can accept jobs.", none, none⟩, s)
  else
    match (findOneAndUpdateClaim s.orders orderId caller.id).1 with
    | none =>
      (conflictResp3,
       { s with orders := (findOneAndUpdateClaim s.orders orderId caller.id).2 })
    | some u =>
      (⟨200, none, some "Job accepted successfully. Order is now marked as Shipped.",
        some u.oid⟩,
       { s with orders := (findOneAndUpdateClaim s.orders orderId caller.id).2 })

/-- Sequential execution of a batch of claim attempts on the same order,
one per rider id, each through the part_003 accept route.  Because the
route is one atomic conditional update, any concurrent execution is
equivalent to such a serialization. -/
def runClaims (s : Store3) (orderId : Nat) (riders : List Nat) :
    List RespA3 × Store3 :=
  match riders with
  | [] => ([], s)
  | r :: rs =>
    ((accept3 ⟨r, "rider"⟩ s orderId).1 ::
       (runClaims (accept3 ⟨r, "rider"⟩ s orderId).2 orderId rs).1,
     (runClaims (accept3 ⟨r, "rider"⟩ s orderId).2 orderId rs).2)

/-- The stores reachable through the public mutating operations of the
part_003 variant (order creation and rider claim; the variant has no
delivery-confirmation or cancellation route, and the job feed is
read-only). -/
inductive Reach3 : Store3 → Prop
  | init : Reach3 ⟨[], [], [], 0⟩
  | seedProduct (p : Product3) (s : Store3) : Reach3 s →
      Reach3 { s with products := s.products ++ [p] }
  | seedUser (u : User3) (s : Store3) : Reach3 s →
      Reach3 { s with users := s.users ++ [u] }
  | create (c : Auth) (b : Body3) (now : Nat) (s : Store3) : Reach3 s →
      Reach3 (createOrder3 c b now s).2
  | accept (c : Auth) (orderId : Nat) (s : Store3) : Reach3 s →
      Reach3 (accept3 c s orderId).2

/-! ## The server.js variant (second half) over the models/Order schema of
part_001 -/

/-- `models/Order` of part_001: buyer, seller, rider (default `null`),
product, deliveryFee (default 1500), totalAmount, commission (default 0),
status (default `"pending"`), createdAt. -/
structure OrderM where
  oid : Nat
  buyer : Nat
  seller : Nat
  rider : Option Nat
  product : Nat
  deliveryFee : ℚ
  totalAmount : ℚ
  commission : ℚ
  status : String
  createdAt : Nat
deriving DecidableEq, Repr

/-- The collections touched by the second server.js half. -/
structure StoreM where
  products : List Product3
  orders : List OrderM
  nextOid : Nat
deriving DecidableEq, Repr

/-- `COMMISSION_RATE = 0.10` of the second server.js half, of the second
part_002 half and of part_004. -/
def COMMISSION_RATE_V2 : ℚ := 1 / 10

/-- Request body of the second server.js half `POST /api/orders`:
`{ buyerId, productId, price, deliveryFee }` (buyer id and price taken
from the request body). -/
structure BodySJ where
  buyerId : Nat
  productId : Nat
  price : ℚ
  deliveryFee : ℚ
deriving DecidableEq, Repr

/-- Response of the second server.js half `POST /api/orders`. -/
structure RespCSJ where
  status : Nat
  error : Option String
  order : Option OrderM
  yourCommission : Option ℚ
deriving DecidableEq, Repr

/-- Second server.js half `POST /api/orders`: 404 when the product is
missing, otherwise `commission = price * 0.10`,
`totalAmount = price + deliveryFee`, seller resolved from the product,
order saved with status `"pending"` (rider defaults to `null`). -/
def createOrderSJ (body : BodySJ) (now : Nat) (s : StoreM) :
    RespCSJ × StoreM :=
  match findProduct3 s.products body.productId with
  | none => (⟨404, some "Product not found", none, none⟩, s)
  | some p =>
    let calculatedCommission := body.price * COMMISSION_RATE_V2
    let totalAmount := body.price + body.deliveryFee
    let o : OrderM :=
      { oid := s.nextOid
        buyer := body.buyerId
        seller := p.seller
        rider := none
        product := body.productId
        deliveryFee := body.deliveryFee
        totalAmount := totalAmount
        commission := calculatedCommission
        status := "pending"
        createdAt := now }
    (⟨201, none, some o, some calculatedCommission⟩,
     { s with orders := s.orders ++ [o], nextOid := s.nextOid + 1 })

/-- `Order.findById`. -/
def findOrderM (s : StoreM) (orderId : Nat) : Option OrderM :=
  s.orders.find? (fun o => o.oid == orderId)

/-- `order.save()`: writes the (modified) fetched document back over the
stored document with the same id. -/
def saveOrderM (s : StoreM) (u : OrderM) : StoreM :=
  { s with orders := s.orders.map (fun o => if o.oid == u.oid then u else o) }

/-- Response of `POST /api/orders/accept/:orderId` (second server.js
half).  On success the route returns the updated order. -/
structure RespASJ where
  status : Nat
  error : Option String
  message : Option String
  order : Option OrderM
deriving DecidableEq, Repr

/-- The 404 response of the server.js accept route (order id unknown). -/
def sjsNotFoundResp : RespASJ := ⟨404, some "Order not found.", none, none⟩

/-- The 400 response of the server.js accept route (rider already set). -/
def sjsAssignedResp : RespASJ :=
  ⟨400, some "This job is already assigned.", none, none⟩

/-- The second phase of the server.js accept handler, run on the snapshot
returned by `findById`: 404 when no document was found, 400 when the
snapshot already has a rider, otherwise it sets rider and status on the
snapshot and saves it back — an unconditional write against whatever the
store holds by then. -/
def sjsAcceptFinish (snap : Option OrderM) (riderId : Nat) (s : StoreM) :
    RespASJ × StoreM :=
  match snap with
  | none => (sjsNotFoundResp, s)
  | some o =>
    if o.rider ≠ none then (sjsAssignedResp, s)
    else
      let u := { o with rider := some riderId, status := "shipping" }
      (⟨200, none,
        some "Order successfully assigned to Rider. Status changed to Shipping.",
        some u⟩,
       saveOrderM s u)

/-- server.js `POST /api/orders/accept/:orderId`: 403 unless the caller is
a rider, then the read (`findById`) immediately followed by the write
phase — a read-then-write sequence, not a conditional update. -/
def sjsAccept (caller : Auth) (s : StoreM) (orderId : Nat) :
    RespASJ × StoreM :=
  if caller.role ≠ "rider" then
    (⟨403, some "Permission denied. Only Riders can accept jobs.", none, none⟩, s)
  else
    sjsAcceptFinish (findOrderM s orderId) caller.id s

/-! ## The server.js variant (first half): order creation with three
distinct failure responses -/

/-- `OrderSchema` of the first server.js half (no rider, no totalAmount
field). -/
structure OrderV1 where
  oid : Nat
  buyer : Nat
  seller : Nat
  product : Nat
  price : ℚ
  deliveryFee : ℚ
  commission : ℚ
  status : String
  createdAt : Nat
deriving DecidableEq, Repr

/-- The collections touched by the first server.js half. -/
structure StoreV1 where
  products : List Product3
  orders : List OrderV1
  nextOid : Nat
deriving DecidableEq, Repr

/-- Response of the first server.js half `POST /api/orders`. -/
structure RespCV1 where
  status : Nat
  error : Option String
  order : Option OrderV1
  netSellerPayout : Option ℚ
deriving DecidableEq, Repr

/-- First server.js half `POST /api/orders`: 400 when sellerId is absent,
404 when the product is missing, 400 when the stock is below 1 — three
textually distinct responses — then `commission = price * 0.05`, order
saved (status defaults to `"pending"`), stock decremented. -/
def createOrderV1 (caller : Auth) (body : Body3) (now : Nat) (s : StoreV1) :
    RespCV1 × StoreV1 :=
  if falsyN body.sellerId then
    (⟨400, some "Seller ID is required to place an order.", none, none⟩, s)
  else
    match findProduct3 s.products body.productId with
    | none => (⟨404, some "Product not found.", none, none⟩, s)
    | some p =>
      if p.stock < 1 then
        (⟨400, some "Product is out of stock.", none, none⟩, s)
      else
        let commission := body.price * COMMISSION_RATE
        let netPrice := body.price - commission
        let o : OrderV1 :=
          { oid := s.nextOid
            buyer := caller.id
            seller := body.sellerId.getD 0
            product := body.productId
            price := body.price
            deliveryFee := body.deliveryFee.getD 1500
            commission := commission
            status := "pending"
            createdAt := now }
        let products := s.products.map
          (fun q => if q.pid == p.pid then { q with stock := q.stock - 1 } else q)
        (⟨201, none, some o, some netPrice⟩,
         { s with products := products, orders := s.orders ++ [o],
                  nextOid := s.nextOid + 1 })

/-! ## The part_004 variant: order creation validating field presence
only, over the models/Order schema of part_000 -/

/-- `models/Order` of part_000: product, buyer, seller, totalAmount,
commission, status (default `"Placed"`), orderDate. -/
structure OrderV4 where
  oid : Nat
  product : Nat
  buyer : Nat
  seller : Nat
  totalAmount : ℚ
  commission : ℚ
  status : String
  orderDate : Nat
deriving DecidableEq, Repr

/-- Request body of part_004 `POST /api/orders`:
`{ productId, price, sellerId, deliveryFee }`, each possibly absent. -/
structure BodyV4 where
  productId : Option Nat
  price : Option ℚ
  sellerId : Option Nat
  deliveryFee : Option ℚ
deriving DecidableEq, Repr

/-- JavaScript falsiness of a possibly-absent numeric amount (`!x`). -/
def falsyQ (x : Option ℚ) : Bool :=
  match x with
  | none => true
  | some v => v == 0

/-- Response of part_004 `POST /api/orders`. -/
structure RespCV4 where
  status : Nat
  error : Option String
  order : Option OrderV4
deriving DecidableEq, Repr

/-- part_004 `POST /api/orders`: 400 when productId, price or sellerId is
falsy; otherwise it builds the order directly from the request body —
there is no product lookup and no stock check —
with `totalAmount = price + (deliveryFee || 0)` and
`commission = price * 0.10`, status `"Placed"`. -/
def createOrderV4 (caller : Auth) (body : BodyV4) (now : Nat)
    (orders : List OrderV4) (nextOid : Nat) :
    RespCV4 × List OrderV4 :=
  if falsyN body.productId || falsyQ body.price || falsyN body.sellerId then
    (⟨400, some "Missing required order fields: productId, price, or sellerId.",
      none⟩, orders)
  else
    let price := (body.price).getD 0
    let totalAmount := price + (body.deliveryFee).getD 0
    let calculatedCommission := price * COMMISSION_RATE_V2
    let o : OrderV4 :=
      { oid := nextOid
        product := (body.productId).getD 0
        buyer := caller.id
        seller := (body.sellerId).getD 0
        totalAmount := totalAmount
        commission := calculatedCommission
        status := "Placed"
        orderDate := now }
    (⟨201, none, some o⟩, orders ++ [o])

/-! ## The part_002 variant (first half): unauthenticated job feed -/

/-- Order schema of the first part_002 half. -/
structure OrderP2 where
  oid : Nat
  buyer : Nat
  seller : Nat
  product : Nat
  price : ℚ
  deliveryFee : ℚ
  status : String
  rider : Option Nat
  createdAt : Nat
deriving DecidableEq, Repr

/-- Response of part_002 `GET /api/jobs`. -/
structure RespJP2 where
  status : Nat
  jobs : List OrderP2
deriving DecidableEq, Repr

/-- part_002 `GET /api/jobs`: the route has no auth middleware and no role
check; whoever the caller is, it returns 200 with the orders matching
`status = pending, rider = null`. -/
def getJobsP2 (_caller : Auth) (orders : List OrderP2) : RespJP2 :=
  ⟨200, orders.filter (fun o => o.status == "pending" && o.rider == none)⟩

/-! ## The part_002 variant (second half): order creation with the price
resolved from the product record, over the models/Order schema of
part_000 -/

/-- Request body of part_002 (second half) `POST /api/orders`:
`(productId, deliveryFee)` — no price field; the price is resolved
server-side. -/
structure BodyP2 where
  productId : Nat
  deliveryFee : Option ℚ
deriving DecidableEq, Repr

/-- The collections touched by the part_002 (second half) order route. -/
structure StoreP2O where
  products : List Product3
  orders : List OrderV4
  nextOid : Nat
deriving DecidableEq, Repr

/-- Response of part_002 (second half) `POST /api/orders`. -/
structure RespCP2 where
  status : Nat
  error : Option String
  order : Option OrderV4
  yourCommission : Option ℚ
deriving DecidableEq, Repr

/-- part_002 (second half) `POST /api/orders`: 404 when the product is
missing; otherwise price and seller are resolved from the product record
(`price = product.price`, `sellerId = product.seller`),
`totalAmount = price + (deliveryFee or 0)`,
`commission = price * 0.10`, and the order is saved with status
`"Placed"`. -/
def createOrderP2 (caller : Auth) (body : BodyP2) (now : Nat) (s : StoreP2O) :
    RespCP2 × StoreP2O :=
  match findProduct3 s.products body.productId with
  | none => (⟨404, some "Product not found.", none, none⟩, s)
  | some product =>
    let price := product.price
    let sellerId := product.seller
    let totalAmount := price + (body.deliveryFee).getD 0
    let calculatedCommission := price * COMMISSION_RATE_V2
    let o : OrderV4 :=
      { oid := s.nextOid
        product := body.productId
        buyer := caller.id
        seller := sellerId
        totalAmount := totalAmount
        commission := calculatedCommission
        status := "Placed"
        orderDate := now }
    (⟨201, none, some o, some calculatedCommission⟩,
     { s with orders := s.orders ++ [o], nextOid := s.nextOid + 1 })

/-! ## The part_002 variant (second half): registration overwriting an
existing user, over the models/User schema -/

/-- `models/User`: name, email, password, role (default `"buyer"`),
walletBalance (default 0), isVerified (default false), createdAt. -/
structure UserRec where
  uid : Nat
  name : String
  email : String
  password : String
  role : String
  walletBalance : ℚ
  isVerified : Bool
  createdAt : Nat
deriving DecidableEq, Repr

/-- The user collection plus a fresh-id counter. -/
structure StoreU where
  users : List UserRec
  nextUid : Nat
deriving DecidableEq, Repr

/-- Request body of part_002 `POST /api/register`. -/
structure RegBody where
  name : String
  email : Option String
  password : Option String
  role : Option String
deriving DecidableEq, Repr

/-- A signed JWT payload `{ id, role }`. -/
structure Token where
  id : Nat
  role : String
deriving DecidableEq, Repr

/-- The user summary returned by the register route. -/
structure RegUserView where
  id : Nat
  name : String
  email : String
  role : String
deriving DecidableEq, Repr

/-- Response of part_002 `POST /api/register`. -/
structure RespReg where
  status : Nat
  error : Option String
  message : Option String
  token : Option Token
  user : Option RegUserView
deriving DecidableEq, Repr

/-- `User.findOne({ email })`. -/
def findUserByEmail (l : List UserRec) (email : String) : Option UserRec :=
  l.find? (fun u => u.email == email)

/-- part_002 (second half) `POST /api/register`, with the bcrypt hash as
an explicit function parameter: 400 when email or password is falsy; when
a user with that email already exists, its password is overwritten with
the hash of the supplied password and its role replaced by the supplied
role (default `"buyer"`), then 200 with a freshly signed token for that
account — the previous password is never compared; otherwise a new user
is created and 201 returned. -/
def registerP2 (hash : String → String) (now : Nat) (body : RegBody)
    (s : StoreU) : RespReg × StoreU :=
  if falsyS body.email || falsyS body.password then
    (⟨400, some "Please enter all required fields", none, none, none⟩, s)
  else
    let email := (body.email).getD ""
    let password := (body.password).getD ""
    match findUserByEmail s.users email with
    | some u =>
      let u' := { u with password := hash password, role := jsOrS body.role "buyer" }
      (⟨200, none, some "User updated successfully!",
        some ⟨u'.uid, u'.role⟩, some ⟨u'.uid, u'.name, u'.email, u'.role⟩⟩,
       { s with users := s.users.map (fun v => if v.uid == u.uid then u' else v) })
    | none =>
      let newUser : UserRec :=
        { uid := s.nextUid
          name := body.name
          email := email
          password := hash password
          role := jsOrS body.role "buyer"
          walletBalance := 0
          isVerified := false
          createdAt := now }
      (⟨201, none, some "User registered successfully!",
        some ⟨newUser.uid, newUser.role⟩,
        some ⟨newUser.uid, newUser.name, newUser.email, newUser.role⟩⟩,
       { users := s.users ++ [newUser], nextUid := s.nextUid + 1 })

/-- Overwriting the stored password of the user holding `uid` (used to
state that registration never reads the previous password). -/
def setPassword (s : StoreU) (uid : Nat) (p : String) : StoreU :=
  { s with
    users := s.users.map (fun v => if v.uid == uid then { v with password := p } else v) }

/-! ## Concrete fixtures used by witnesses and counterexamples -/

/-- A stocked product. -/
def prodA : Product3 := ⟨30, "Yam", "Tuber", 10000, 5, 20⟩

/-- A product with zero stock. -/
def prodZero : Product3 := ⟨31, "Rice", "Grain", 8000, 0, 20⟩

/-- A pending, unclaimed part_003 order. -/
def pendingOrder3 : Order3 := ⟨1, 10, 20, 30, 10000, 1500, 500, "pending", none, 0⟩

/-- A part_003 order already claimed by rider 7. -/
def claimedOrder3 : Order3 := ⟨2, 11, 20, 30, 10000, 1500, 500, "shipped", some 7, 0⟩

/-- A part_003 store with one open and one claimed order. -/
def store3A : Store3 :=
  ⟨[prodA], [pendingOrder3, claimedOrder3], [⟨20, "Sam Seller"⟩, ⟨10, "Bea Buyer"⟩], 3⟩

/-- A part_003 store holding no orders at all. -/
def store3Empty : Store3 := ⟨[], [], [], 0⟩

/-- A part_003 store whose only order is already claimed. -/
def store3Claimed : Store3 := ⟨[], [claimedOrder3], [], 3⟩

/-- A part_003 store whose only product has zero stock. -/
def storeZeroStock : Store3 := ⟨[prodZero], [], [], 0⟩

/-- A pending, unclaimed order of the models/Order schema. -/
def mOrderPending : OrderM := ⟨1, 10, 20, none, 30, 1500, 11500, 1000, "pending", 0⟩

/-- A models/Order order already claimed by rider 7. -/
def mOrderClaimed : OrderM := ⟨1, 10, 20, some 7, 30, 1500, 11500, 1000, "shipping", 0⟩

/-- An empty store for the second server.js half. -/
def mStoreEmpty : StoreM := ⟨[], [], 0⟩

/-- A store for the second server.js half with one open order. -/
def mStorePending : StoreM := ⟨[], [mOrderPending], 2⟩

/-- A store for the second server.js half with one claimed order. -/
def mStoreClaimed : StoreM := ⟨[], [mOrderClaimed], 2⟩

/-- A store for the second server.js half holding only a product. -/
def mStoreProd : StoreM := ⟨[prodA], [], 0⟩

/-- The order produced by `createOrderSJ` on `mStoreProd` with price 10000
and delivery fee 1500 (the worked example of the specification:
totalAmount 11500, commission 1000). -/
def c3witOrder : OrderM :=
  ⟨0, 10, 20, none, 30, 1500, (10000 : ℚ) + 1500, (10000 : ℚ) * COMMISSION_RATE_V2,
   "pending", 0⟩

/-- A product priced at 5 currency units. -/
def prodCheap : Product3 := ⟨32, "Gum", "Chewy", 5, 5, 20⟩

/-- A store for the part_002 (second half) order route holding a
10000-priced and a 5-priced product. -/
def p2cStore : StoreP2O := ⟨[prodA, prodCheap], [], 0⟩

/-- The order produced by `createOrderP2` on `p2cStore` for product 30
(resolved price 10000) with delivery fee 1500: totalAmount 11500,
commission 1000. -/
def c3p2witOrder : OrderV4 :=
  ⟨0, 30, 10, 20, (10000 : ℚ) + 1500, (10000 : ℚ) * COMMISSION_RATE_V2, "Placed", 0⟩

/-- A pending, unclaimed part_002 order. -/
def p2PendingOrder : OrderP2 := ⟨1, 10, 20, 30, 8000, 2500, "pending", none, 0⟩

/-- The claimed order produced by creating an order on a seeded store and
accepting it as rider 9 (its commission is 10000 times the 5 percent
rate, that is 500). -/
def c2witOrder : Order3 :=
  ⟨0, 10, 20, 30, 10000, 1500, 10000 * COMMISSION_RATE, "shipped", some 9, 5⟩

/-- A store for the first server.js half holding a stocked and an
unstocked product. -/
def v1Store : StoreV1 := ⟨[prodA, prodZero], [], 0⟩

/-- A concrete stand-in for the bcrypt hash. -/
def witHash (p : String) : String := String.append "hashed:" p

/-- An already registered user. -/
def regUser0 : UserRec := ⟨1, "Ann", "ann@example.com", "oldhash", "buyer", 0, false, 0⟩

/-- A user store holding `regUser0`. -/
def regStore0 : StoreU := ⟨[regUser0], 2⟩

/-! ## Helper lemmas about the atomic conditional update -/

theorem map_noop {α : Type} (l : List α) (f : α → α) (h : ∀ x ∈ l, f x = x) :
    l.map f = l := by
  induction l with
  | nil => rfl
  | cons a tl ih =>
    simp only [List.map_cons]
    rw [h a (by simp), ih (fun x hx => h x (by simp [hx]))]

/-- When no document matches the filter, `findOneAndUpdate` returns no
document and leaves the collection unchanged. -/
theorem fOAU_nomatch (l : List Order3) (orderId riderId : Nat)
    (h : ∀ x ∈ l, ¬(x.oid = orderId ∧ x.status = "pending" ∧ x.rider = none)) :
    findOneAndUpdateClaim l orderId riderId = (none, l) := by
  induction l with
  | nil => rfl
  | cons a tl ih =>
    rw [findOneAndUpdateClaim, if_neg (h a (by simp)),
      ih (fun x hx => h x (by simp [hx]))]

/-- When the collection has no duplicate ids and holds a pending,
unclaimed order `o`, the claim update on `o.oid` returns the claimed
document and replaces exactly the document with that id. -/
theorem fOAU_found (l : List Order3) (riderId : Nat) (o : Order3)
    (hid : (l.map Order3.oid).Nodup) (hmem : o ∈ l)
    (hp : o.status = "pending") (hr : o.rider = none) :
    findOneAndUpdateClaim l o.oid riderId =
      (some (claimUpdate riderId o),
       l.map (fun x => if x.oid = o.oid then claimUpdate riderId x else x)) := by
  induction l with
  | nil => simp at hmem
  | cons a tl ih =>
    rw [List.map_cons, List.nodup_cons] at hid
    rcases List.mem_cons.mp hmem with h1 | h1
    · subst h1
      rw [findOneAndUpdateClaim, if_pos ⟨rfl, hp, hr⟩]
      have htl : ∀ x ∈ tl, (if x.oid = o.oid then claimUpdate riderId x else x) = x := by
        intro x hx
        have hne : x.oid ≠ o.oid := fun hEq =>
          hid.1 (List.mem_map.mpr ⟨x, hx, hEq⟩)
        rw [if_neg hne]
      simp [List.map_cons, map_noop tl _ htl]
    · have hane : a.oid ≠ o.oid := fun hEq => by
        exact hid.1 (hEq ▸ List.mem_map.mpr ⟨o, h1, rfl⟩)
      rw [findOneAndUpdateClaim, if_neg (fun hc => hane hc.1),
        ih hid.2 h1]
      simp only [List.map_cons, if_neg hane]

/-- Every document in the collection left by the claim update is either an
original document or the claim update of a pending, unclaimed original. -/
theorem fOAU_mem (l : List Order3) (orderId riderId : Nat) (x : Order3)
    (hx : x ∈ (findOneAndUpdateClaim l orderId riderId).2) :
    x ∈ l ∨ ∃ y, y ∈ l ∧ y.status = "pending" ∧ y.rider = none ∧
      x = claimUpdate riderId y := by
  induction l with
  | nil => simp [findOneAndUpdateClaim] at hx
  | cons a tl ih =>
    rw [findOneAndUpdateClaim] at hx
    by_cases hc : a.oid = orderId ∧ a.status = "pending" ∧ a.rider = none
    · rw [if_pos hc] at hx
      rcases List.mem_cons.mp hx with h | h
      · exact Or.inr ⟨a, by simp, hc.2.1, hc.2.2, h⟩
      · exact Or.inl (by simp [h])
    · rw [if_neg hc] at hx
      rcases List.mem_cons.mp hx with h | h
      · exact Or.inl (by simp [h])
      · rcases ih h with h2 | ⟨y, hy, hs, hrr, hxe⟩
        · exact Or.inl (by simp [h2])
        · exact Or.inr ⟨y, by simp [hy], hs, hrr, hxe⟩

/-- In a collection without duplicate ids, looking up a member by its id
finds exactly it. -/
theorem find_oid_unique (l : List Order3) (o : Order3)
    (hid : (l.map Order3.oid).Nodup) (hmem : o ∈ l) :
    l.find? (fun x => x.oid == o.oid) = some o := by
  cases hfind : l.find? (fun x => x.oid == o.oid) with
  | none =>
    have := List.find?_eq_none.mp hfind o hmem
    simp at this
  | some x =>
    have hxl := List.mem_of_find?_eq_some hfind
    have hpx : x.oid = o.oid := by simpa using List.find?_some hfind
    rw [List.inj_on_of_nodup_map hid hxl hmem hpx]

/-- A successful run of the part_003 accept route: the 200 response names
the order id, and the store holds the claimed order in place. -/
theorem accept3_success (s : Store3) (o : Order3) (r : Nat)
    (hid : (s.orders.map Order3.oid).Nodup) (hmem : o ∈ s.orders)
    (hp : o.status = "pending") (hr : o.rider = none) :
    accept3 ⟨r, "rider"⟩ s o.oid =
      (⟨200, none, some "Job accepted successfully. Order is now marked as Shipped.",
        some o.oid⟩,
       { s with orders :=
          s.orders.map (fun x => if x.oid = o.oid then claimUpdate r x else x) }) := by
  unfold accept3
  rw [if_neg (by simp)]
  show (match (findOneAndUpdateClaim s.orders o.oid r).1 with
    | none => _
    | some u => _) = _
  rw [fOAU_found s.orders r o hid hmem hp hr]
  simp [claimUpdate, fOAU_found s.orders r o hid hmem hp hr]

/-- When every order carrying the requested id already has a rider, the
part_003 accept route returns the single 404 response and leaves the store
unchanged. -/
theorem accept3_nomatch (s : Store3) (orderId r : Nat)
    (h : ∀ x ∈ s.orders, x.oid = orderId → x.rider ≠ none) :
    accept3 ⟨r, "rider"⟩ s orderId = (conflictResp3, s) := by
  unfold accept3
  rw [if_neg (by simp)]
  show (match (findOneAndUpdateClaim s.orders orderId r).1 with
    | none => _
    | some u => _) = _
  rw [fOAU_nomatch s.orders orderId r (fun x hx hc => h x hx hc.1 hc.2.2)]

/-- After the in-place claim of `o`, every order carrying `o.oid` has a
rider. -/
theorem claimed_after_map (l : List Order3) (o : Order3) (r : Nat) :
    ∀ x ∈ l.map (fun y => if y.oid = o.oid then claimUpdate r y else y),
      x.oid = o.oid → x.rider ≠ none := by
  intro x hx hxo
  rcases List.mem_map.mp hx with ⟨y, hy, hxy⟩
  by_cases hc : y.oid = o.oid
  · rw [if_pos hc] at hxy; rw [← hxy]; simp [claimUpdate]
  · rw [if_neg hc] at hxy; rw [← hxy] at hxo; exact absurd hxo hc

/-- A batch of claim attempts on an order whose id is already claimed
(in every matching document) yields only conflict responses and leaves the
store untouched. -/
theorem runClaims_nomatch (s : Store3) (orderId : Nat) (rs : List Nat)
    (h : ∀ x ∈ s.orders, x.oid = orderId → x.rider ≠ none) :
    runClaims s orderId rs = (List.replicate rs.length conflictResp3, s) := by
  induction rs with
  | nil => rfl
  | cons r tl ih =>
    rw [runClaims, accept3_nomatch s orderId r h, ih]
    simp [List.replicate]

/-- The order collection after part_003 order creation: unchanged on
failure, extended by one pending, riderless order on success. -/
theorem createOrder3_orders (c : Auth) (b : Body3) (now : Nat) (s : Store3) :
    (createOrder3 c b now s).2.orders = s.orders
    ∨ ∃ o, (createOrder3 c b now s).2.orders = s.orders ++ [o]
        ∧ o.rider = none ∧ o.status = "pending" := by
  unfold createOrder3
  by_cases h1 : falsyN b.sellerId
  · rw [if_pos h1]; exact Or.inl rfl
  · rw [if_neg h1]
    cases hf : findProduct3 s.products b.productId with
    | none => exact Or.inl rfl
    | some p =>
      dsimp only
      by_cases h2 : p.stock < 1
      · rw [if_pos h2]; exact Or.inl rfl
      · rw [if_neg h2]; exact Or.inr ⟨_, rfl, rfl, rfl⟩

/-- Pointwise-equal functions map a list identically. -/
theorem map_congr_mem {α β : Type} (l : List α) (f g : α → β)
    (h : ∀ x ∈ l, f x = g x) : l.map f = l.map g := by
  induction l with
  | nil => rfl
  | cons a tl ih =>
    simp only [List.map_cons]
    rw [h a (by simp), ih (fun x hx => h x (by simp [hx]))]

/-- The order collection after the part_003 accept route: unchanged, or
the result of the conditional update. -/
theorem accept3_orders (c : Auth) (s : Store3) (orderId : Nat) :
    (accept3 c s orderId).2.orders = s.orders
    ∨ (accept3 c s orderId).2.orders =
        (findOneAndUpdateClaim s.orders orderId c.id).2 := by
  unfold accept3
  by_cases h1 : c.role ≠ "rider"
  · rw [if_pos h1]; exact Or.inl rfl
  · rw [if_neg h1]
    cases (findOneAndUpdateClaim s.orders orderId c.id).1 with
    | none => exact Or.inr rfl
    | some u => exact Or.inr rfl

/-! ## The claims -/

/-- Claim C2 (confirmed): for every order reachable through the public
operations of the part_003 variant (order creation and rider claim — the
variant defines no delivery-confirmation or cancellation route), the rider
reference is non-null if and only if the status has progressed past
`"pending"`; in particular a non-null rider implies a non-pending
status. -/
theorem claimC2_thm (s : Store3) (h : Reach3 s) :
    ∀ o ∈ s.orders, o.rider ≠ none ↔ o.status ≠ "pending" := by
  induction h with
  | init => intro o ho; simp at ho
  | seedProduct p s hs ih => intro o ho; exact ih o ho
  | seedUser u s hs ih => intro o ho; exact ih o ho
  | create c b now s hs ih =>
    intro o ho
    rcases createOrder3_orders c b now s with he | ⟨o2, he, hrr, hss⟩
    · exact ih o (he ▸ ho)
    · rw [he] at ho
      rcases List.mem_append.mp ho with h1 | h1
      · exact ih o h1
      · have h2 : o = o2 := by simpa using h1
        subst h2
        constructor
        · intro hc; exact absurd hrr hc
        · intro hc; exact absurd hss hc
  | accept c orderId s hs ih =>
    intro o ho
    rcases accept3_orders c s orderId with he | he
    · exact ih o (he ▸ ho)
    · rw [he] at ho
      rcases fOAU_mem s.orders orderId c.id o ho with h1 | ⟨y, hy, hsy, hry, hxe⟩
      · exact ih o h1
      · subst hxe
        simp [claimUpdate]

/-- Witness for C2 at a concrete reachable store (one seeded product, one
created order, one successful claim). -/
theorem claimC2_wit :
    c2witOrder.rider ≠ none ↔ c2witOrder.status ≠ "pending" :=
  claimC2_thm _
    (Reach3.accept ⟨9, "rider"⟩ 0 _
      (Reach3.create ⟨10, "buyer"⟩ ⟨30, 10000, some 20, none⟩ 5 _
        (Reach3.seedProduct prodA _ Reach3.init)))
    c2witOrder (List.Mem.head _)

/-- Claim C5 (confirmed): every entry of the part_003 job feed is the
summary of an order with status `"pending"` and no rider, and every order
returned by the part_002 job feed has status `"pending"` and no rider; no
claimed or non-pending order ever appears. -/
theorem claimC5_thm :
    (∀ (c : Auth) (s : Store3) (e : JobEntry), e ∈ (getJobs3 c s).jobs →
      ∃ o, o ∈ s.orders ∧ o.status = "pending" ∧ o.rider = none ∧
        e = jobSummary s o)
    ∧ (∀ (c : Auth) (orders : List OrderP2) (o : OrderP2),
      o ∈ (getJobsP2 c orders).jobs → o.status = "pending" ∧ o.rider = none) := by
  constructor
  · intro c s e he
    unfold getJobs3 at he
    by_cases hrole : c.role ≠ "rider" ∧ c.role ≠ "admin"
    · rw [if_pos hrole] at he; simp at he
    · rw [if_neg hrole] at he
      simp only [List.mem_map] at he
      rcases he with ⟨o, ho, hoe⟩
      rw [List.mem_filter] at ho
      have hcond := ho.2
      simp only [Bool.and_eq_true, beq_iff_eq] at hcond
      exact ⟨o, ho.1, hcond.1, hcond.2, hoe.symm⟩
  · intro c orders o ho
    unfold getJobsP2 at ho
    rw [List.mem_filter] at ho
    have hcond := ho.2
    simp only [Bool.and_eq_true, beq_iff_eq] at hcond
    exact hcond

/-- Witness for C5 at a concrete store holding one open and one claimed
order: the feed entry comes from the open order. -/
theorem claimC5_wit :
    ∃ o, o ∈ store3A.orders ∧ o.status = "pending" ∧ o.rider = none ∧
      jobSummary store3A pendingOrder3 = jobSummary store3A o :=
  claimC5_thm.1 ⟨9, "rider"⟩ store3A (jobSummary store3A pendingOrder3)
    (List.Mem.head _)

/-- Claim C6 (amended): the part_003 routes enforce the role guard — the
job feed returns 403 to any caller who is neither rider nor admin, and
both accept routes return 403 to any caller who is not a rider — but the
part_002 variant of `GET /api/jobs` has no authentication or role guard
and returns 200 with the job list to any caller whatsoever. -/
theorem claimC6_thm :
    (∀ (c : Auth) (s : Store3), c.role ≠ "rider" → c.role ≠ "admin" →
      getJobs3 c s = ⟨403, some "Access denied. Only riders can view jobs.", []⟩)
    ∧ (∀ (c : Auth) (s : Store3) (orderId : Nat), c.role ≠ "rider" →
      accept3 c s orderId =
        (⟨403, some "Access denied. Only riders can accept jobs.", none, none⟩, s))
    ∧ (∀ (c : Auth) (s : StoreM) (orderId : Nat), c.role ≠ "rider" →
      sjsAccept c s orderId =
        (⟨403, some "Permission denied. Only Riders can accept jobs.", none, none⟩, s))
    ∧ (∀ (c : Auth) (orders : List OrderP2), (getJobsP2 c orders).status = 200) := by
  refine ⟨?_, ?_, ?_, ?_⟩
  · intro c s h1 h2; unfold getJobs3; rw [if_pos ⟨h1, h2⟩]
  · intro c s orderId h1; unfold accept3; rw [if_pos h1]
  · intro c s orderId h1; unfold sjsAccept; rw [if_pos h1]
  · intro c orders; rfl

/-- Counterexample for C6 as stated: a caller with the part_002 buyer-side
role `"user"` (neither rider nor admin) calls the part_002
`GET /api/jobs` and receives 200 with the job list, not 403. -/
theorem claimC6_cex :
    (getJobsP2 ⟨10, "user"⟩ [p2PendingOrder]).status = 200
    ∧ (getJobsP2 ⟨10, "user"⟩ [p2PendingOrder]).jobs = [p2PendingOrder]
    ∧ ¬ (getJobsP2 ⟨10, "user"⟩ [p2PendingOrder]).status = 403 := by decide

/-- Witness for C6 at concrete buyer-role callers. -/
theorem claimC6_wit :
    getJobs3 ⟨10, "buyer"⟩ store3A =
      ⟨403, some "Access denied. Only riders can view jobs.", []⟩
    ∧ accept3 ⟨10, "buyer"⟩ store3A 1 =
      (⟨403, some "Access denied. Only riders can accept jobs.", none, none⟩, store3A)
    ∧ sjsAccept ⟨10, "buyer"⟩ mStorePending 1 =
      (⟨403, some "Permission denied. Only Riders can accept jobs.", none, none⟩,
       mStorePending)
    ∧ (getJobsP2 ⟨10, "buyer"⟩ [p2PendingOrder]).status = 200 :=
  ⟨claimC6_thm.1 _ _ (by decide) (by decide),
   claimC6_thm.2.1 _ _ _ (by decide),
   claimC6_thm.2.2.1 _ _ _ (by decide),
   claimC6_thm.2.2.2 _ _⟩

/-- Claim C8 (confirmed): claiming an order twice with the same rider has
no duplicate side effect in the part_003 variant — the first claim
succeeds (200), the second returns the guard-failure response (the 404
that the variant uses as its Conflict outcome) and leaves the store
exactly as it was after the first claim. -/
theorem claimC8_thm (s : Store3) (o : Order3) (r : Nat)
    (hid : (s.orders.map Order3.oid).Nodup) (hmem : o ∈ s.orders)
    (hp : o.status = "pending") (hr : o.rider = none) :
    (accept3 ⟨r, "rider"⟩ s o.oid).1.status = 200
    ∧ accept3 ⟨r, "rider"⟩ (accept3 ⟨r, "rider"⟩ s o.oid).2 o.oid
        = (conflictResp3, (accept3 ⟨r, "rider"⟩ s o.oid).2) := by
  rw [accept3_success s o r hid hmem hp hr]
  exact ⟨rfl,
    accept3_nomatch _ o.oid r (fun x hx hxo => claimed_after_map s.orders o r x hx hxo)⟩

/-- Filtering a replicated conflict response for 200 responses yields
nothing. -/
theorem filter_replicate_conflict (n : Nat) :
    (List.replicate n conflictResp3).filter (fun resp => resp.status == 200)
      = [] := by
  induction n with
  | zero => rfl
  | succ k ih =>
    rw [List.replicate_succ, List.filter_cons]
    simp [conflictResp3, ih]

/-- Claim C1 (amended): the part_003 accept route is one atomic
conditional update (`findOneAndUpdate` keyed on the current status and
rider), so a batch of N claim attempts on the same pending, unclaimed
order — in the serialization that atomicity guarantees — has exactly one
success, whose rider is recorded on the order, while the other N-1
attempts receive the single conflict (404) response.  The server.js
accept route is instead a read-then-write sequence and admits two winners
(see the counterexample). -/
theorem claimC1_thm (s : Store3) (o : Order3) (r : Nat) (rs : List Nat)
    (hid : (s.orders.map Order3.oid).Nodup) (hmem : o ∈ s.orders)
    (hp : o.status = "pending") (hr : o.rider = none) :
    ((runClaims s o.oid (r :: rs)).1.head? =
      some ⟨200, none,
        some "Job accepted successfully. Order is now marked as Shipped.",
        some o.oid⟩)
    ∧ (∀ resp ∈ (runClaims s o.oid (r :: rs)).1.tail, resp = conflictResp3)
    ∧ (((runClaims s o.oid (r :: rs)).1.filter
        (fun resp => resp.status == 200)).length = 1)
    ∧ ((runClaims s o.oid (r :: rs)).2.orders.find? (fun x => x.oid == o.oid)
        = some (claimUpdate r o)) := by
  have hstep := accept3_success s o r hid hmem hp hr
  have hafter : ∀ x ∈ (accept3 ⟨r, "rider"⟩ s o.oid).2.orders,
      x.oid = o.oid → x.rider ≠ none := by
    rw [hstep]; exact claimed_after_map s.orders o r
  have hrun := runClaims_nomatch (accept3 ⟨r, "rider"⟩ s o.oid).2 o.oid rs hafter
  simp only [runClaims]
  rw [hrun]
  refine ⟨?_, ?_, ?_, ?_⟩
  · rw [hstep]; rfl
  · intro resp hresp
    have h2 : resp ∈ List.replicate rs.length conflictResp3 := hresp
    exact (List.mem_replicate.mp h2).2
  · rw [hstep, List.filter_cons]
    simp [filter_replicate_conflict]
  · rw [hstep]
    show (s.orders.map (fun x => if x.oid = o.oid then claimUpdate r x else x)).find?
        (fun x => x.oid == o.oid) = some (claimUpdate r o)
    rw [List.find?_map]
    have hcong : ((fun x => x.oid == o.oid) ∘
        (fun x => if x.oid = o.oid then claimUpdate r x else x)) =
        (fun x => x.oid == o.oid) := by
      funext x
      by_cases hc : x.oid = o.oid
      · simp [hc, claimUpdate]
      · simp [hc]
    rw [hcong, find_oid_unique s.orders o hid hmem]
    simp

/-- Counterexample for C1 as stated: the server.js accept route is a
read-then-write sequence (`findById`, guard on the snapshot, `save`).
Interleaving two rider claim attempts on the same pending, unclaimed
order so that both reads happen before either write — the route equals
its read phase composed with its finish phase, as the first conjunct
records — makes both attempts return 200, and the first winner is
silently overwritten by the second: two winners, a lost update. -/
theorem claimC1_cex :
    (sjsAccept ⟨7, "rider"⟩ mStorePending 1
      = sjsAcceptFinish (findOrderM mStorePending 1) 7 mStorePending)
    ∧ ((sjsAcceptFinish (findOrderM mStorePending 1) 7 mStorePending).1.status = 200)
    ∧ ((sjsAcceptFinish (findOrderM mStorePending 1) 8
        (sjsAcceptFinish (findOrderM mStorePending 1) 7 mStorePending).2).1.status
        = 200)
    ∧ (findOrderM (sjsAcceptFinish (findOrderM mStorePending 1) 8
        (sjsAcceptFinish (findOrderM mStorePending 1) 7 mStorePending).2).2 1
      = some { mOrderPending with rider := some 8, status := "shipping" }) :=
  ⟨rfl, rfl, rfl, rfl⟩

/-- Witness for C1 at a concrete store: riders 8 and 9 race for order 1;
the first serialized attempt succeeds and exactly one 200 is returned. -/
theorem claimC1_wit :
    ((runClaims store3A pendingOrder3.oid [8, 9]).1.head? =
      some ⟨200, none,
        some "Job accepted successfully. Order is now marked as Shipped.",
        some pendingOrder3.oid⟩)
    ∧ (((runClaims store3A pendingOrder3.oid [8, 9]).1.filter
        (fun resp => resp.status == 200)).length = 1) :=
  ⟨(claimC1_thm store3A pendingOrder3 8 [9] (by decide) (List.Mem.head _) rfl rfl).1,
   (claimC1_thm store3A pendingOrder3 8 [9] (by decide) (List.Mem.head _)
      rfl rfl).2.2.1⟩

/-- Claim C9 (confirmed): commission and the other financial fields are
written only at creation; a successful claim changes only the rider and
status fields.  In the part_003 variant the claim update replaces the
claimed order in place and preserves every other field and every other
order, and the products collection is untouched; in the server.js variant
the saved document differs from the fetched one only in rider and
status. -/
theorem claimC9_thm :
    (∀ (rid : Nat) (o : Order3),
      (claimUpdate rid o).oid = o.oid ∧ (claimUpdate rid o).buyer = o.buyer
      ∧ (claimUpdate rid o).seller = o.seller
      ∧ (claimUpdate rid o).product = o.product
      ∧ (claimUpdate rid o).price = o.price
      ∧ (claimUpdate rid o).deliveryFee = o.deliveryFee
      ∧ (claimUpdate rid o).commission = o.commission
      ∧ (claimUpdate rid o).createdAt = o.createdAt)
    ∧ (∀ (s : Store3) (o : Order3) (r : Nat),
      (s.orders.map Order3.oid).Nodup → o ∈ s.orders → o.status = "pending" →
      o.rider = none →
      (accept3 ⟨r, "rider"⟩ s o.oid).2.orders
        = s.orders.map (fun x => if x.oid = o.oid then claimUpdate r x else x)
      ∧ (accept3 ⟨r, "rider"⟩ s o.oid).2.products = s.products)
    ∧ (∀ (s : StoreM) (orderId r : Nat) (om : OrderM),
      findOrderM s orderId = some om → om.rider = none →
      (sjsAccept ⟨r, "rider"⟩ s orderId).2
        = saveOrderM s { om with rider := some r, status := "shipping" }
      ∧ ({ om with rider := some r, status := "shipping" } : OrderM).commission
          = om.commission
      ∧ ({ om with rider := some r, status := "shipping" } : OrderM).totalAmount
          = om.totalAmount
      ∧ ({ om with rider := some r, status := "shipping" } : OrderM).deliveryFee
          = om.deliveryFee
      ∧ ({ om with rider := some r, status := "shipping" } : OrderM).buyer = om.buyer
      ∧ ({ om with rider := some r, status := "shipping" } : OrderM).seller = om.seller
      ∧ ({ om with rider := some r, status := "shipping" } : OrderM).product
          = om.product
      ∧ ({ om with rider := some r, status := "shipping" } : OrderM).createdAt
          = om.createdAt) := by
  refine ⟨?_, ?_, ?_⟩
  · intro rid o
    exact ⟨rfl, rfl, rfl, rfl, rfl, rfl, rfl, rfl⟩
  · intro s o r hid hmem hp hr
    rw [accept3_success s o r hid hmem hp hr]
    exact ⟨rfl, rfl⟩
  · intro s orderId r om hfind hrid
    unfold sjsAccept
    rw [if_neg (by simp), hfind]
    unfold sjsAcceptFinish
    dsimp only
    rw [if_neg (by simp [hrid])]
    exact ⟨rfl, rfl, rfl, rfl, rfl, rfl, rfl, rfl⟩

/-- Witness for C9 at concrete claims in both variants. -/
theorem claimC9_wit :
    (accept3 ⟨9, "rider"⟩ store3A pendingOrder3.oid).2.orders
      = store3A.orders.map
          (fun x => if x.oid = pendingOrder3.oid then claimUpdate 9 x else x)
    ∧ (sjsAccept ⟨7, "rider"⟩ mStorePending 1).2
      = saveOrderM mStorePending
          { mOrderPending with rider := some 7, status := "shipping" }
    ∧ (claimUpdate 9 pendingOrder3).commission = pendingOrder3.commission :=
  ⟨(claimC9_thm.2.1 store3A pendingOrder3 9 (by decide) (List.Mem.head _) rfl rfl).1,
   (claimC9_thm.2.2 mStorePending 1 7 mOrderPending rfl rfl).1,
   (claimC9_thm.1 9 pendingOrder3).2.2.2.2.2.2.1⟩

/-- Witness for C8 at a concrete store with one open order. -/
theorem claimC8_wit :
    (accept3 ⟨9, "rider"⟩ store3A pendingOrder3.oid).1.status = 200
    ∧ accept3 ⟨9, "rider"⟩ (accept3 ⟨9, "rider"⟩ store3A pendingOrder3.oid).2
        pendingOrder3.oid
        = (conflictResp3, (accept3 ⟨9, "rider"⟩ store3A pendingOrder3.oid).2) :=
  claimC8_thm store3A pendingOrder3 9 (by decide) (List.Mem.head _) rfl rfl

/-- Claim C3 (amended): for every successful order creation of the
part_002 (second half) variant — the cited route that resolves the price
from the product record — the persisted order satisfies
`commission = p * r` exactly, the raw product with no rounding applied,
and `totalAmount = p + d`, where `p` is the resolved product price and
`d` the supplied delivery fee (default 0).  The second server.js variant
persists the same unrounded formulas, but computed from the
client-supplied request-body price, which that route uses in place of the
resolved product price it never reads. -/
theorem claimC3_thm :
    (∀ (c : Auth) (body : BodyP2) (now : Nat) (s : StoreP2O) (p : Product3)
      (o : OrderV4),
      findProduct3 s.products body.productId = some p →
      (createOrderP2 c body now s).1.order = some o →
      o.commission = p.price * COMMISSION_RATE_V2
      ∧ o.totalAmount = p.price + (body.deliveryFee).getD 0)
    ∧ (∀ (body : BodySJ) (now : Nat) (s : StoreM) (o : OrderM),
      (createOrderSJ body now s).1.order = some o →
      o.commission = body.price * COMMISSION_RATE_V2
      ∧ o.totalAmount = body.price + body.deliveryFee) := by
  constructor
  · intro c body now s p o hfind h
    unfold createOrderP2 at h
    rw [hfind] at h
    dsimp only at h
    rw [Option.some_inj] at h
    rw [← h]
    exact ⟨rfl, rfl⟩
  · intro body now s o h
    unfold createOrderSJ at h
    cases hf : findProduct3 s.products body.productId with
    | none => rw [hf] at h; simp at h
    | some p =>
      rw [hf] at h
      dsimp only at h
      rw [Option.some_inj] at h
      rw [← h]
      exact ⟨rfl, rfl⟩

/-- Counterexample for C3 as stated, with `p` the resolved product price.
On the part_002 route the resolved price of product 32 is 5, and the
persisted commission is the unrounded product — one half — while
`round(p * r)` is 1: the handler never rounds.  On the server.js route
the resolved price of product 30 is 10000, yet a request-body price of 5
makes it persist commission 5 times the rate: the persisted value is
computed from the client-supplied price, not from the resolved product
price at all. -/
theorem claimC3_cex :
    ((createOrderP2 ⟨10, "buyer"⟩ ⟨32, some 1500⟩ 0 p2cStore).1.order.map
        OrderV4.commission = some ((5 : ℚ) * COMMISSION_RATE_V2))
    ∧ ((5 : ℚ) * COMMISSION_RATE_V2
        ≠ ((round ((5 : ℚ) * COMMISSION_RATE_V2) : ℤ) : ℚ))
    ∧ ((createOrderSJ ⟨10, 30, 5, 1500⟩ 0 mStoreProd).1.order.map OrderM.commission
        = some ((5 : ℚ) * COMMISSION_RATE_V2))
    ∧ (findProduct3 mStoreProd.products 30 = some prodA)
    ∧ (prodA.price = 10000)
    ∧ ((5 : ℚ) * COMMISSION_RATE_V2 ≠ (10000 : ℚ) * COMMISSION_RATE_V2) := by
  refine ⟨rfl, ?_, rfl, rfl, rfl, ?_⟩
  · norm_num [COMMISSION_RATE_V2, round_eq]
  · norm_num [COMMISSION_RATE_V2]

/-- Witness for C3 at the worked example of the specification: resolved
product price 10000, delivery fee 1500, commission 1000, totalAmount
11500, on both creation routes. -/
theorem claimC3_wit :
    (c3p2witOrder.commission = prodA.price * COMMISSION_RATE_V2
      ∧ c3p2witOrder.totalAmount = prodA.price + (some (1500 : ℚ)).getD 0)
    ∧ (c3witOrder.commission = (10000 : ℚ) * COMMISSION_RATE_V2
      ∧ c3witOrder.totalAmount = (10000 : ℚ) + 1500)
    ∧ (c3p2witOrder.commission = 1000 ∧ c3p2witOrder.totalAmount = 11500) :=
  ⟨claimC3_thm.1 ⟨10, "buyer"⟩ ⟨30, some 1500⟩ 0 p2cStore prodA c3p2witOrder rfl rfl,
   claimC3_thm.2 ⟨10, 30, 10000, 1500⟩ 0 mStoreProd c3witOrder rfl,
   by norm_num [c3p2witOrder, COMMISSION_RATE_V2]⟩

/-- Claim C4 (amended): in the server.js variant the failure outcomes of a
claim are distinguishable — an unknown order id yields the 404 NotFound
response, a failed guard (rider already set) yields the 400 Conflict
response, and the two differ — and a successful claim returns 200 with
the updated order.  In the part_003 variant, by contrast, a missing id
and a failed guard produce one and the same 404 response (see the
counterexample), so the two failures are not distinguishable there. -/
theorem claimC4_thm :
    (∀ (c : Auth) (s : StoreM) (orderId : Nat),
      c.role = "rider" → findOrderM s orderId = none →
      sjsAccept c s orderId = (sjsNotFoundResp, s))
    ∧ (∀ (c : Auth) (s : StoreM) (orderId : Nat) (om : OrderM),
      c.role = "rider" → findOrderM s orderId = some om → om.rider ≠ none →
      sjsAccept c s orderId = (sjsAssignedResp, s))
    ∧ sjsNotFoundResp ≠ sjsAssignedResp
    ∧ (∀ (c : Auth) (s : StoreM) (orderId : Nat) (om : OrderM),
      c.role = "rider" → findOrderM s orderId = some om → om.rider = none →
      (sjsAccept c s orderId).1.status = 200
      ∧ (sjsAccept c s orderId).1.order
          = some { om with rider := some c.id, status := "shipping" })
    ∧ (∀ (c : Auth) (s : Store3) (orderId : Nat),
      (accept3 c s orderId).1 = conflictResp3
      ∨ (accept3 c s orderId).1.status = 200
      ∨ (accept3 c s orderId).1.status = 403) := by
  refine ⟨?_, ?_, by decide, ?_, ?_⟩
  · intro c s orderId hrole hfind
    unfold sjsAccept
    rw [if_neg (by simp [hrole]), hfind]
    rfl
  · intro c s orderId om hrole hfind hrid
    unfold sjsAccept
    rw [if_neg (by simp [hrole]), hfind]
    unfold sjsAcceptFinish
    dsimp only
    rw [if_pos hrid]
  · intro c s orderId om hrole hfind hrid
    unfold sjsAccept
    rw [if_neg (by simp [hrole]), hfind]
    unfold sjsAcceptFinish
    dsimp only
    rw [if_neg (by simp [hrid])]
    exact ⟨rfl, rfl⟩
  · intro c s orderId
    unfold accept3
    by_cases h1 : c.role ≠ "rider"
    · rw [if_pos h1]
      right; right; rfl
    · rw [if_neg h1]
      cases hE : (findOneAndUpdateClaim s.orders orderId c.id).1 with
      | none => left; rfl
      | some u => right; left; rfl

/-- Counterexample for C4 as stated: in the part_003 variant, claiming a
nonexistent order id and claiming an existing but already-claimed order
produce one and the same 404 response — the caller cannot distinguish
NotFound from Conflict. -/
theorem claimC4_cex :
    ((accept3 ⟨9, "rider"⟩ store3Empty 1).1
      = (accept3 ⟨9, "rider"⟩ store3Claimed 2).1)
    ∧ ((accept3 ⟨9, "rider"⟩ store3Empty 1).1 = conflictResp3)
    ∧ ((accept3 ⟨9, "rider"⟩ store3Empty 1).1.status = 404) :=
  ⟨rfl, rfl, rfl⟩

/-- Witness for C4 at concrete stores: unknown id, claimed order, and a
successful claim. -/
theorem claimC4_wit :
    (sjsAccept ⟨9, "rider"⟩ mStoreEmpty 1 = (sjsNotFoundResp, mStoreEmpty))
    ∧ (sjsAccept ⟨9, "rider"⟩ mStoreClaimed 1 = (sjsAssignedResp, mStoreClaimed))
    ∧ ((sjsAccept ⟨9, "rider"⟩ mStorePending 1).1.status = 200)
    ∧ ((sjsAccept ⟨9, "rider"⟩ mStorePending 1).1.order
        = some { mOrderPending with rider := some 9, status := "shipping" }) :=
  ⟨claimC4_thm.1 _ _ _ rfl rfl,
   claimC4_thm.2.1 _ _ _ mOrderClaimed rfl rfl (by decide),
   (claimC4_thm.2.2.2.1 ⟨9, "rider"⟩ mStorePending 1 mOrderPending rfl rfl rfl).1,
   (claimC4_thm.2.2.2.1 ⟨9, "rider"⟩ mStorePending 1 mOrderPending rfl rfl rfl).2⟩

/-- Claim C7 (amended): the first server.js variant of order creation has
three distinct failures — 400 for a missing seller id (InvalidInput), 404
for a missing product (NotFound), and a 400 with its own message for
insufficient stock (OutOfStock).  The part_003 variant instead collapses
the missing-product and out-of-stock failures into one identical 400
response (see the counterexample), and the part_004 variant validates
field presence only: with all fields present it returns 201 without any
product or stock check at all. -/
theorem claimC7_thm :
    (∀ (c : Auth) (b : Body3) (now : Nat) (s : StoreV1),
      falsyN b.sellerId = true →
      createOrderV1 c b now s =
        (⟨400, some "Seller ID is required to place an order.", none, none⟩, s))
    ∧ (∀ (c : Auth) (b : Body3) (now : Nat) (s : StoreV1),
      falsyN b.sellerId = false → findProduct3 s.products b.productId = none →
      createOrderV1 c b now s = (⟨404, some "Product not found.", none, none⟩, s))
    ∧ (∀ (c : Auth) (b : Body3) (now : Nat) (s : StoreV1) (p : Product3),
      falsyN b.sellerId = false → findProduct3 s.products b.productId = some p →
      p.stock < 1 →
      createOrderV1 c b now s =
        (⟨400, some "Product is out of stock.", none, none⟩, s))
    ∧ ((⟨400, some "Seller ID is required to place an order.", none, none⟩ : RespCV1)
        ≠ ⟨404, some "Product not found.", none, none⟩)
    ∧ ((⟨404, some "Product not found.", none, none⟩ : RespCV1)
        ≠ ⟨400, some "Product is out of stock.", none, none⟩)
    ∧ ((⟨400, some "Seller ID is required to place an order.", none, none⟩ : RespCV1)
        ≠ ⟨400, some "Product is out of stock.", none, none⟩)
    ∧ (∀ (c : Auth) (b : Body3) (now : Nat) (s : Store3),
      falsyN b.sellerId = false → findProduct3 s.products b.productId = none →
      (createOrder3 c b now s).1
        = ⟨400, some "Product is out of stock or not found.", none⟩)
    ∧ (∀ (c : Auth) (b : Body3) (now : Nat) (s : Store3) (p : Product3),
      falsyN b.sellerId = false → findProduct3 s.products b.productId = some p →
      p.stock < 1 →
      (createOrder3 c b now s).1
        = ⟨400, some "Product is out of stock or not found.", none⟩)
    ∧ (∀ (c : Auth) (b : BodyV4) (now : Nat) (orders : List OrderV4) (nid : Nat),
      falsyN b.productId = false → falsyQ b.price = false →
      falsyN b.sellerId = false →
      (createOrderV4 c b now orders nid).1.status = 201) := by
  refine ⟨?_, ?_, ?_, by decide, by decide, by decide, ?_, ?_, ?_⟩
  · intro c b now s h1
    simp [createOrderV1, h1]
  · intro c b now s h1 h2
    simp [createOrderV1, h1, h2]
  · intro c b now s p h1 h2 h3
    simp [createOrderV1, h1, h2, h3]
  · intro c b now s h1 h2
    simp [createOrder3, h1, h2]
  · intro c b now s p h1 h2 h3
    simp [createOrder3, h1, h2, h3]
  · intro c b now orders nid h1 h2 h3
    simp [createOrderV4, h1, h2, h3]

/-- Counterexample for C7 as stated: in the part_003 variant, creating an
order for a product id that does not exist and creating one for a product
with zero stock produce one and the same 400 response — NotFound and
OutOfStock are not distinct outcomes there, and the missing product does
not yield a 404. -/
theorem claimC7_cex :
    ((createOrder3 ⟨10, "buyer"⟩ ⟨99, 5000, some 20, none⟩ 0 store3A).1
      = (createOrder3 ⟨10, "buyer"⟩ ⟨31, 5000, some 20, none⟩ 0 storeZeroStock).1)
    ∧ ((createOrder3 ⟨10, "buyer"⟩ ⟨99, 5000, some 20, none⟩ 0 store3A).1.status
        = 400) :=
  ⟨rfl, rfl⟩

/-- Witness for C7 at concrete inputs for each failure and for the
part_004 lookup-free success. -/
theorem claimC7_wit :
    (createOrderV1 ⟨10, "buyer"⟩ ⟨30, 5000, none, none⟩ 0 v1Store
      = (⟨400, some "Seller ID is required to place an order.", none, none⟩, v1Store))
    ∧ (createOrderV1 ⟨10, "buyer"⟩ ⟨99, 5000, some 20, none⟩ 0 v1Store
      = (⟨404, some "Product not found.", none, none⟩, v1Store))
    ∧ (createOrderV1 ⟨10, "buyer"⟩ ⟨31, 5000, some 20, none⟩ 0 v1Store
      = (⟨400, some "Product is out of stock.", none, none⟩, v1Store))
    ∧ ((createOrderV4 ⟨10, "buyer"⟩ ⟨some 99, some 5000, some 20, none⟩ 0 [] 0).1.status
      = 201) :=
  ⟨claimC7_thm.1 _ _ _ _ rfl,
   claimC7_thm.2.1 _ _ _ _ rfl rfl,
   claimC7_thm.2.2.1 _ _ _ _ prodZero rfl rfl (by decide),
   claimC7_thm.2.2.2.2.2.2.2.2 _ _ _ _ _ rfl rfl rfl⟩

/-- Looking a user up by email is oblivious to a password overwrite. -/
theorem findUserByEmail_setPassword (l : List UserRec) (uid : Nat) (p' e : String) :
    findUserByEmail
      (l.map (fun v => if v.uid == uid then { v with password := p' } else v)) e
    = (findUserByEmail l e).map
        (fun v => if v.uid == uid then { v with password := p' } else v) := by
  unfold findUserByEmail
  rw [List.find?_map]
  have hcong : ((fun u : UserRec => u.email == e) ∘
      (fun v : UserRec => if v.uid == uid then { v with password := p' } else v))
      = (fun u : UserRec => u.email == e) := by
    funext v
    by_cases hv : v.uid = uid
    · simp [hv]
    · simp [hv]
  rw [hcong]

/-- The register route on an existing email: full computation of the
response and of the updated store. -/
theorem registerP2_found (hash : String → String) (now : Nat) (body : RegBody)
    (s : StoreU) (u : UserRec) (e pw : String)
    (hemail : body.email = some e) (hpw : body.password = some pw)
    (hene : e ≠ "") (hpwne : pw ≠ "")
    (hfind : findUserByEmail s.users e = some u) :
    registerP2 hash now body s =
      (⟨200, none, some "User updated successfully!",
        some ⟨u.uid, jsOrS body.role "buyer"⟩,
        some ⟨u.uid, u.name, u.email, jsOrS body.role "buyer"⟩⟩,
       { s with users := s.users.map (fun v => if v.uid == u.uid then
           { u with password := hash pw, role := jsOrS body.role "buyer" } else v) })
    := by
  unfold registerP2
  rw [hemail, hpw]
  have h1 : (falsyS (some e) || falsyS (some pw)) = false := by
    simp [falsyS, hene, hpwne]
  rw [h1, if_neg (by simp)]
  dsimp only [Option.getD]
  rw [hfind]

/-- Claim C10 (confirmed): a registration request whose email matches an
existing user is not rejected: the stored password is overwritten with
the hash of the newly supplied password, the role is replaced by the
supplied role (default buyer), and 200 is returned with a token freshly
signed for that account — and the outcome is entirely independent of the
previously stored password, which is never compared. -/
theorem claimC10_thm (hash : String → String) (now : Nat) (body : RegBody)
    (s : StoreU) (u : UserRec) (e pw : String)
    (hemail : body.email = some e) (hpw : body.password = some pw)
    (hene : e ≠ "") (hpwne : pw ≠ "")
    (hfind : findUserByEmail s.users e = some u) :
    ((registerP2 hash now body s).1.status = 200)
    ∧ ((registerP2 hash now body s).1.token
        = some ⟨u.uid, jsOrS body.role "buyer"⟩)
    ∧ ((registerP2 hash now body s).2.users
        = s.users.map (fun v => if v.uid == u.uid then
            { u with password := hash pw, role := jsOrS body.role "buyer" } else v))
    ∧ (∀ p', registerP2 hash now body (setPassword s u.uid p')
        = registerP2 hash now body s) := by
  have hmain := registerP2_found hash now body s u e pw hemail hpw hene hpwne hfind
  refine ⟨by rw [hmain], by rw [hmain], by rw [hmain], ?_⟩
  intro p'
  have hfind' : findUserByEmail (setPassword s u.uid p').users e
      = some { u with password := p' } := by
    show findUserByEmail
      (s.users.map (fun v => if v.uid == u.uid then { v with password := p' } else v))
      e = _
    rw [findUserByEmail_setPassword, hfind]
    simp
  have hmain' := registerP2_found hash now body (setPassword s u.uid p')
    { u with password := p' } e pw hemail hpw hene hpwne hfind'
  rw [hmain, hmain']
  simp only [Prod.mk.injEq, StoreU.mk.injEq]
  refine ⟨by trivial, ?_, by trivial⟩
  show (s.users.map
      (fun v => if v.uid == u.uid then { v with password := p' } else v)).map _
    = s.users.map _
  rw [List.map_map]
  apply map_congr_mem
  intro x hx
  by_cases hxx : (x.uid == u.uid) = true
  · simp [Function.comp, hxx]
  · simp [Function.comp, hxx]

/-- Witness for C10: re-registering the already-present email with a new
password and the rider role succeeds with 200, and the outcome ignores
whatever password was stored before. -/
theorem claimC10_wit :
    ((registerP2 witHash 3 ⟨"Ann", some "ann@example.com", some "newpw", some "rider"⟩
        regStore0).1.status = 200)
    ∧ ((registerP2 witHash 3 ⟨"Ann", some "ann@example.com", some "newpw", some "rider"⟩
        regStore0).1.token = some ⟨regUser0.uid, jsOrS (some "rider") "buyer"⟩)
    ∧ (registerP2 witHash 3 ⟨"Ann", some "ann@example.com", some "newpw", some "rider"⟩
        (setPassword regStore0 regUser0.uid "whatever")
      = registerP2 witHash 3 ⟨"Ann", some "ann@example.com", some "newpw", some "rider"⟩
        regStore0) :=
  ⟨(claimC10_thm witHash 3 _ regStore0 regUser0 "ann@example.com" "newpw" rfl rfl
      (by decide) (by decide) rfl).1,
   (claimC10_thm witHash 3 _ regStore0 regUser0 "ann@example.com" "newpw" rfl rfl
      (by decide) (by decide) rfl).2.1,
   (claimC10_thm witHash 3 _ regStore0 regUser0 "ann@example.com" "newpw" rfl rfl
      (by decide) (by decide) rfl).2.2.2 "whatever"⟩

end SwiftLogi
